import Mathlib

/-!
Verification of the kernel threading core of a PintOS variant.

Shallow embedding of `src/threads/thread.c` and the syscall validation layer
(`src/userprog/syscall.c`, `src/userprog/handlers.c`).  Machine integers are
modelled as `Int`/`Nat`; C integer division (truncation toward zero) is
modelled by `Int.tdiv`.  Definitions follow the source function by function;
the few repository pieces that are not under `src/` (the fixed-point macros of
`lib/fp_arithmetic.h`, the intrusive list's ordered insert of
`lib/kernel/list.c`, and the constants of `thread.h`/`vaddr.h`/`syscall-nr.h`)
are modelled from the specification and marked as such in their doc comments.
-/

namespace PintOS

/-- Scheduling constants from the spec / `thread.h` (not under `src/`):
`PRI_MIN = 0`. -/
def PRI_MIN : Int := 0

/-- `PRI_DEFAULT = 31`. -/
def PRI_DEFAULT : Int := 31

/-- `PRI_MAX = 63`. -/
def PRI_MAX : Int := 63

/-- `NICE_MIN = -20`. -/
def NICE_MIN : Int := -20

/-- `NICE_MAX = 20`. -/
def NICE_MAX : Int := 20

/-- Modelled from the spec: the distinguished error id returned by
`thread_create` on allocation failure (`TID_ERROR` of `thread.h`, which is not
under `src/`). -/
def TID_ERROR : Int := -1

/-- Modelled from the spec: initial exit status `EXIT_STATUS_FAIL` stored by
`init_thread` (constant defined outside `src/`); its exact value is never
consulted by the claims. -/
def EXIT_STATUS_FAIL : Int := -1

/-- Modelled from the spec: the fixed-point scaling factor of the 17.14 signed
Q-format of `lib/fp_arithmetic.h` (not under `src/`): `2^14`. -/
def fpF : Int := 2 ^ 14

/-- Modelled from the spec: `INT_ADD(x, n)` adds the integer `n` (shifted into
fixed point) to the fixed-point value `x`. -/
def INT_ADD (x n : Int) : Int := x + n * fpF

/-- Modelled from the spec: `INT_SUB(n, x)` subtracts the fixed-point value `x`
from the integer `n` (shifted into fixed point), as used in
`thread_update_priority` (`INT_SUB(PRI_MAX, temp1)`). -/
def INT_SUB (n x : Int) : Int := n * fpF - x

/-- Modelled from the spec: `INT_MULTIPLY(x, n)` multiplies the fixed-point
value `x` by the integer `n` without widening. -/
def INT_MULTIPLY (x n : Int) : Int := x * n

/-- Modelled from the spec: `INT_DIVIDE(x, n)` divides the fixed-point value
`x` by the integer `n`; C integer division truncates toward zero. -/
def INT_DIVIDE (x n : Int) : Int := Int.tdiv x n

/-- Modelled from the spec: `MULTIPLY(x, y)` multiplies two fixed-point values
using a widened intermediate. -/
def MULTIPLY (x y : Int) : Int := Int.tdiv (x * y) fpF

/-- Modelled from the spec: `DIVIDE(x, y)` divides two fixed-point values using
a widened intermediate. -/
def DIVIDE (x y : Int) : Int := Int.tdiv (x * fpF) y

/-- Modelled from the spec: `ROUND_ZERO(x)` converts the fixed-point value `x`
to an integer rounding toward zero. -/
def ROUND_ZERO (x : Int) : Int := Int.tdiv x fpF

/-- The `CLAMP` macro of `thread.c`:
`(((x) > (high)) ? (high) : (((x) < (low)) ? (low) : (x)))`. -/
def CLAMP (x low high : Int) : Int :=
  if x > high then high else if x < low then low else x

/-- Thread execution states (`enum thread_status` of `thread.h`). -/
inductive Status where
  | running
  | ready
  | blocked
  | dying
deriving DecidableEq, Repr

/-- The fields of `struct thread` consulted by the claims.  The intrusive list
link fields (`elem`, `allelem`, `mlfqselem`) are not represented: membership of
a thread in a list is modelled by the thread record occurring in the Lean list
that stands for that kernel list. -/
structure Thread where
  tid : Nat
  status : Status
  priority : Int
  orig_priority : Int
  nice : Int
  recent_cpu : Int
  donors_list : List Nat
deriving DecidableEq, Repr

/-- `thread_set_priority` (thread.c:420-438), restricted to its effect on the
current thread's record: clamps `new_priority` into `orig_priority`, then sets
the effective `priority` to the raw `new_priority` when the donors list is
empty or `new_priority` exceeds the current effective priority.  The trailing
ready-list front comparison and possible `thread_yield` do not change any
field of the current thread's record read back by `thread_get_priority`. -/
def thread_set_priority (new_priority : Int) (curr : Thread) : Thread :=
  let curr1 := { curr with orig_priority := CLAMP new_priority PRI_MIN PRI_MAX }
  if curr1.donors_list.isEmpty || decide (new_priority > curr1.priority) then
    { curr1 with priority := new_priority }
  else
    curr1

/-- `thread_get_priority` (thread.c:441-444). -/
def thread_get_priority (curr : Thread) : Int := curr.priority

/-- `thread_compare_priorities` (thread.c:799-808): strict greater-than on the
`priority` fields. -/
def thread_compare_priorities (t1 t2 : Thread) : Bool :=
  if t1.priority > t2.priority then true else false

/-- Modelled from the spec: `ordered-insert(node, less-fn)` of the intrusive
list (`list_insert_ordered` of `lib/kernel/list.c`, which is not under
`src/`): the node is inserted in front of the first element for which
`less node element` holds, i.e. behind every element for which it does not. -/
def insert_ordered (less : Thread → Thread → Bool) (x : Thread) :
    List Thread → List Thread
  | [] => [x]
  | y :: ys => if less x y then x :: y :: ys else y :: insert_ordered less x ys

/-- A child record pushed by `thread_create` onto the creator's
`process_children` list (`struct child_process`). -/
structure Child where
  tid : Nat
  exit_status : Int
  did_execute : Bool
deriving DecidableEq, Repr

/-- The kernel scheduler state touched by `thread.c`.  Kernel lists hold
`Thread` records; the intrusive aliasing of list nodes with the thread objects
is modelled by inserting the already-updated record wherever the source
mutates a field of a thread right after linking it into a list.  `idle_thread`
is an `Option` because the global is `NULL` until the idle thread registers
itself; `children` stands for the running thread's `process_children` list. -/
structure Kern where
  thread_mlfqs : Bool
  ready_list : List Thread
  mlfqs_lists : List (List Thread)
  all_list : List Thread
  children : List Child
  next_tid : Nat
  cur : Thread
  idle_thread : Option Thread
deriving DecidableEq, Repr

/-- `list_push_back(&mlfqs_lists[t->priority], ...)`: append `t` to the MLFQS
bucket indexed by its priority. -/
def bucket_push (bs : List (List Thread)) (t : Thread) : List (List Thread) :=
  bs.set t.priority.toNat (bs.getD t.priority.toNat [] ++ [t])

/-- The pointer comparison `t == idle_thread`, with `NULL` compared unequal to
every thread.  Pointer identity is modelled by tid equality (tids are unique
among live threads). -/
def is_idle (k : Kern) (t : Thread) : Bool :=
  match k.idle_thread with
  | some i => i.tid == t.tid
  | none => false

/-- `thread_unblock` (thread.c:318-336): insert `t` into the ready list by
priority order (non-MLFQS) or push it at the tail of its priority bucket
(MLFQS), then set its status to `READY` (the inserted node aliases `t`, so the
record is inserted already updated).  Returns the updated kernel and the
updated thread record.  Precondition (`ASSERT`): `t.status = blocked`. -/
def thread_unblock (k : Kern) (t : Thread) : Kern × Thread :=
  let t1 := { t with status := Status.ready }
  if !k.thread_mlfqs then
    ({ k with ready_list := insert_ordered thread_compare_priorities t1 k.ready_list }, t1)
  else
    ({ k with mlfqs_lists := bucket_push k.mlfqs_lists t1 }, t1)

/-- `thread_mlfqs_get_highest_priority`'s descending scan (thread.c:788-797),
starting at index `i`: the first index `≤ i` whose bucket is non-empty, else
`-1`. -/
def highest_from (bs : List (List Thread)) : Nat → Int
  | 0 => if (bs.getD 0 []).isEmpty then -1 else 0
  | i + 1 => if (bs.getD (i + 1) []).isEmpty then highest_from bs i else (i + 1 : Nat)

/-- `thread_mlfqs_get_highest_priority` (thread.c:788-797): scan the buckets
from `PRI_MAX = 63` downward. -/
def thread_mlfqs_get_highest_priority (bs : List (List Thread)) : Int :=
  highest_from bs 63

/-- `next_thread_to_run` (thread.c:599-613).  Returns the chosen thread
(`none` models returning a `NULL` `idle_thread`, which cannot happen once the
idle thread has registered) and the kernel with the chosen thread popped from
its structure.  Popping from an empty bucket is unreachable (the scan returned
its index, so it is non-empty) and is modelled as returning `none`. -/
def next_thread_to_run (k : Kern) : Option Thread × Kern :=
  if !k.thread_mlfqs then
    match k.ready_list with
    | [] => (k.idle_thread, k)
    | t :: rest => (some t, { k with ready_list := rest })
  else
    let hp := thread_mlfqs_get_highest_priority k.mlfqs_lists
    if hp ≠ -1 then
      match k.mlfqs_lists.getD hp.toNat [] with
      | [] => (none, k)
      | t :: rest => (some t, { k with mlfqs_lists := k.mlfqs_lists.set hp.toNat rest })
    else
      (k.idle_thread, k)

/-- `schedule` (thread.c:665-677) combined with the status-marking step of
`thread_schedule_tail` (thread.c:637): pick the next thread and mark it
`RUNNING`.  The page-freeing branch of the tail is modelled separately by
`thread_schedule_tail` below; the time-slice counter and address-space
activation are outside the modelled state. -/
def schedule (k : Kern) : Kern :=
  match next_thread_to_run k with
  | (some next, k1) => { k1 with cur := { next with status := Status.running } }
  | (none, k1) => k1

/-- The body of `thread_yield` (thread.c:388-404) up to the call to
`schedule`: unless the current thread is the idle thread, re-insert it into
the ready list (non-MLFQS, priority-ordered) or at the tail of its priority
bucket (MLFQS); then set its status to `READY` (this assignment is outside
the `if`, and the inserted node aliases the thread, so the record is inserted
already updated). -/
def thread_yield_enqueue (k : Kern) : Kern :=
  let cur := k.cur
  let cur1 := { cur with status := Status.ready }
  let k1 :=
    if !is_idle k cur then
      if !k.thread_mlfqs then
        { k with ready_list := insert_ordered thread_compare_priorities cur1 k.ready_list }
      else
        { k with mlfqs_lists := bucket_push k.mlfqs_lists cur1 }
    else
      k
  { k1 with cur := cur1 }

/-- `thread_yield` (thread.c:388-404): the enqueue part followed by
`schedule`. -/
def thread_yield (k : Kern) : Kern :=
  schedule (thread_yield_enqueue k)

/-- `init_thread` (thread.c:541-581), restricted to the modelled fields: a
fresh blocked thread with the given priority as both effective and base
priority, inheriting `nice` and `recent_cpu` from the creator (the
initial-thread branch never fires for threads made by `thread_create`), pushed
at the back of `all_list`.  Precondition (`ASSERT`):
`PRI_MIN ≤ priority ≤ PRI_MAX`. -/
def init_thread (k : Kern) (tid : Nat) (priority : Int) : Kern × Thread :=
  let t : Thread :=
    { tid := tid, status := Status.blocked, priority := priority,
      orig_priority := priority, nice := k.cur.nice,
      recent_cpu := k.cur.recent_cpu, donors_list := [] }
  ({ k with all_list := k.all_list ++ [t] }, t)

/-- `thread_create` (thread.c:234-294).  `allocOk` models whether
`palloc_get_page` succeeds; on failure the function returns `TID_ERROR`
before any state is touched.  On success: `init_thread`, tid allocation, a
child record pushed on the creator's `process_children`, `thread_unblock`,
and a `thread_yield` exactly when the new thread's priority strictly exceeds
the creator's and the new thread is not the idle thread.  Returns the tid,
the resulting kernel, and whether the yield was taken. -/
def thread_create (k : Kern) (priority : Int) (allocOk : Bool) :
    Int × Kern × Bool :=
  if !allocOk then
    (TID_ERROR, k, false)
  else
    let tid := k.next_tid
    let (k1, t) := init_thread k tid priority
    let k2 := { k1 with next_tid := k1.next_tid + 1 }
    let c : Child := { tid := tid, exit_status := EXIT_STATUS_FAIL, did_execute := false }
    let k3 := { k2 with children := k2.children ++ [c] }
    let (k4, t1) := thread_unblock k3 t
    let yielded := decide (t1.priority > k4.cur.priority) && !is_idle k4 t1
    let k5 := if yielded then thread_yield k4 else k4
    ((tid : Int), k5, yielded)

/-- The priority computation of `thread_update_priority` (thread.c:761-763):
`temp1 = INT_ADD(INT_DIVIDE(recent_cpu, 4), 2 * nice)`,
`temp2 = ROUND_ZERO(INT_SUB(PRI_MAX, temp1))`,
`priority = CLAMP(temp2, PRI_MIN, PRI_MAX)`. -/
def mlfqs_priority_calc (recent_cpu nice : Int) : Int :=
  let temp1 := INT_ADD (INT_DIVIDE recent_cpu 4) (2 * nice)
  let temp2 := ROUND_ZERO (INT_SUB PRI_MAX temp1)
  CLAMP temp2 PRI_MIN PRI_MAX

/-- The spec's wording of the same formula:
`priority ← PRI_MAX − (recent_cpu / 4) − 2·nice`, computed in 17.14 fixed
point with each division truncating toward zero, then clamped to
`[PRI_MIN..PRI_MAX]`.  Stated separately from `mlfqs_priority_calc` (which
follows the source) so that the two can be compared. -/
def mlfqs_priority_spec (recent_cpu nice : Int) : Int :=
  CLAMP (Int.tdiv (PRI_MAX * fpF - Int.tdiv recent_cpu 4 - 2 * nice * fpF) fpF)
    PRI_MIN PRI_MAX

/-- `list_remove(&t->mlfqselem)`: remove the thread with tid `tid` from
whichever MLFQS bucket holds it. -/
def bucket_remove (bs : List (List Thread)) (tid : Nat) : List (List Thread) :=
  bs.map (fun b => b.filter (fun x => x.tid ≠ tid))

/-- `thread_update_priority` (thread.c:757-772): recompute the priority unless
the thread is the wake-up, MLFQS housekeeping, or idle thread; then, if the
thread is `READY`, move it from its current bucket to the tail of the bucket
of its (possibly new) priority.  Returns the updated record and buckets. -/
def thread_update_priority (wakeup_tid mlfqs_tid idle_tid : Nat) (t : Thread)
    (bs : List (List Thread)) : Thread × List (List Thread) :=
  let t1 :=
    if t.tid ≠ wakeup_tid ∧ t.tid ≠ mlfqs_tid ∧ t.tid ≠ idle_tid then
      { t with priority := mlfqs_priority_calc t.recent_cpu t.nice }
    else t
  if t1.status = Status.ready then
    (t1, bucket_push (bucket_remove bs t.tid) t1)
  else
    (t1, bs)

/-- `thread_update_load_avg` (thread.c:713-737): count the `READY` threads on
`all_list` other than the wake-up, MLFQS housekeeping, and idle threads; add
one for the current (running) thread unless it is one of those three; then
`load_avg = INT_DIVIDE(INT_ADD(INT_MULTIPLY(load_avg, 59), ready_threads), 60)`.
Returns the new `load_avg`. -/
def thread_update_load_avg (wakeup_tid mlfqs_tid idle_tid : Nat)
    (all_list : List Thread) (curr : Thread) (load_avg : Int) : Int :=
  let ready0 :=
    (all_list.filter (fun t =>
      decide (t.status = Status.ready ∧ t.tid ≠ wakeup_tid ∧
        t.tid ≠ mlfqs_tid ∧ t.tid ≠ idle_tid))).length
  let ready1 :=
    if curr.tid ≠ wakeup_tid ∧ curr.tid ≠ mlfqs_tid ∧ curr.tid ≠ idle_tid then
      ready0 + 1
    else ready0
  INT_DIVIDE (INT_ADD (INT_MULTIPLY load_avg 59) (ready1 : Int)) 60

/-- The spec's wording of `ready_count`: the number of threads on `all_list`
whose status is `READY` or `RUNNING`, excluding the wake-up, MLFQS
housekeeping, and idle threads. -/
def ready_count_spec (wakeup_tid mlfqs_tid idle_tid : Nat)
    (all_list : List Thread) : Nat :=
  (all_list.filter (fun t =>
    decide ((t.status = Status.ready ∨ t.status = Status.running) ∧
      t.tid ≠ wakeup_tid ∧ t.tid ≠ mlfqs_tid ∧ t.tid ≠ idle_tid))).length

/-- The per-thread state consulted by `thread_schedule_tail`: a tid-to-status
map (for the statuses of `cur` and `prev`), the current and initial tids, and
the list of pages freed so far (`palloc_free_page` calls, by tid). -/
structure TailState where
  threads : List (Nat × Status)
  cur : Nat
  initial_tid : Nat
  freed : List Nat
deriving DecidableEq, Repr

/-- Status update in the tid-to-status map. -/
def set_status (m : List (Nat × Status)) (tid : Nat) (st : Status) :
    List (Nat × Status) :=
  m.map (fun p => if p.1 = tid then (p.1, st) else p)

/-- Status lookup in the tid-to-status map. -/
def lookup_status (m : List (Nat × Status)) (tid : Nat) : Option Status :=
  match m with
  | [] => none
  | (i, s) :: rest => if i = tid then some s else lookup_status rest tid

/-- `thread_schedule_tail` (thread.c:631-656), restricted to the modelled
state: mark the current thread `RUNNING`; then, if `prev` is non-null, its
status is `DYING`, and it is not the initial thread, free its page.  (`prev`'s
status is read after the current thread was marked `RUNNING`, which is what
makes `prev == cur` and the freeing condition mutually exclusive.) -/
def thread_schedule_tail (s : TailState) (prev : Option Nat) : TailState :=
  let s1 := { s with threads := set_status s.threads s.cur Status.running }
  match prev with
  | none => s1
  | some p =>
    if lookup_status s1.threads p = some Status.dying ∧ p ≠ s1.initial_tid then
      { s1 with freed := s1.freed ++ [p] }
    else s1

/-- Modelled from the spec: `PHYS_BASE` of `threads/vaddr.h` (not under
`src/`); PintOS reserves memory at and above this address for the kernel. -/
def PHYS_BASE : Nat := 0xC0000000

/-- Modelled from the spec: syscall numbers of `lib/syscall-nr.h` (not under
`src/`), in their standard enumeration order.  `SYS_HALT = 0`. -/
def SYS_HALT : Int := 0

/-- `SYS_EXIT = 1`. -/
def SYS_EXIT : Int := 1

/-- `SYS_EXEC = 2`. -/
def SYS_EXEC : Int := 2

/-- `SYS_WAIT = 3`. -/
def SYS_WAIT : Int := 3

/-- `SYS_CREATE = 4`. -/
def SYS_CREATE : Int := 4

/-- `SYS_REMOVE = 5`. -/
def SYS_REMOVE : Int := 5

/-- `SYS_OPEN = 6`. -/
def SYS_OPEN : Int := 6

/-- `SYS_FILESIZE = 7`. -/
def SYS_FILESIZE : Int := 7

/-- `SYS_READ = 8`. -/
def SYS_READ : Int := 8

/-- `SYS_WRITE = 9`. -/
def SYS_WRITE : Int := 9

/-- `SYS_SEEK = 10`. -/
def SYS_SEEK : Int := 10

/-- `SYS_TELL = 11`. -/
def SYS_TELL : Int := 11

/-- `SYS_CLOSE = 12`. -/
def SYS_CLOSE : Int := 12

/-- User-visible memory of the calling process: maps the byte address of an
aligned word to its 32-bit contents, or `none` when the address is not mapped
in the process's page directory (`pagedir_get_page` returns `NULL`). -/
def Mem : Type := Nat → Option Int

/-- The C cast of a 32-bit value read from the stack to a pointer. -/
def addrOf (v : Int) : Nat := (v % (2 ^ 32)).toNat

/-- `is_user_vaddr(a)`: `a < PHYS_BASE`. -/
def is_user_vaddr (a : Nat) : Bool := a < PHYS_BASE

/-- The two checks of `is_valid_address` (handlers.c:214-226): the address is
a user virtual address and is mapped in the page directory. -/
def addr_valid (m : Mem) (a : Nat) : Bool := is_user_vaddr a && (m a).isSome

/-- Outcome of a syscall dispatch:
`ret v` — the handler returned and `v` was stored in `f->eax`;
`ret_noeax` — the dispatcher returned without storing to `f->eax`
(seek/tell/close and unknown syscall numbers);
`exited s` — the process was terminated through `SYSCALL_exit_handler(s)`
(which never returns);
`fault a` — the kernel dereferenced the unmapped address `a` without
validating it first;
`halt` — `shutdown_power_off`. -/
inductive SysEff where
  | ret (eax : Int)
  | ret_noeax
  | exited (status : Int)
  | fault (a : Nat)
  | halt
deriving DecidableEq, Repr

/-- `is_valid_address` (handlers.c:214-226) in continuation style: if either
check fails, the process is terminated through `SYSCALL_exit_handler(-1)`;
otherwise execution continues. -/
def chk (m : Mem) (a : Nat) (k : Unit → SysEff) : SysEff :=
  if addr_valid m a then k () else SysEff.exited (-1)

/-- An unchecked dereference `*(p + i)` performed by `syscall_handler`: reads
the word when the address is mapped and faults otherwise. -/
def rd (m : Mem) (a : Nat) (k : Int → SysEff) : SysEff :=
  match m a with
  | some v => k v
  | none => SysEff.fault a

/-- The handler functions of `handlers.c` that the dispatcher forwards to,
abstracted by their return values (their bodies only touch the filesystem and
process collaborators, which the spec places out of scope).  `SYS_EXIT` is not
here: the dispatcher's call to `SYSCALL_exit_handler` is modelled directly as
an `exited` outcome. -/
structure Handlers where
  execute_handler : Int → Int
  wait_handler : Int → Int
  create_handler : Int → Int → Int
  remove_handler : Int → Int
  open_handler : Int → Int
  filesize_handler : Int → Int
  read_handler : Int → Int → Int → Int
  write_handler : Int → Int → Int → Int
  tell_handler : Int → Int

/-- `syscall_handler` (syscall.c:34-120).  `esp` is the user stack pointer
`p`; `p + i` in the source advances by `int`s, hence byte offset `4 * i`
here.  Each case performs exactly the `is_valid_address` checks and the raw
dereferences of the source, in source order (arguments of a handler call are
read left to right). -/
def syscall_handler (m : Mem) (H : Handlers) (esp : Nat) : SysEff :=
  let p := esp
  chk m p (fun _ =>
  rd m p (fun system_call =>
  if system_call = SYS_HALT then SysEff.halt
  else if system_call = SYS_EXIT then
    chk m (p + 4) (fun _ => rd m (p + 4) (fun v => SysEff.exited v))
  else if system_call = SYS_EXEC then
    chk m (p + 4) (fun _ => rd m (p + 4) (fun v =>
      chk m (addrOf v) (fun _ => SysEff.ret (H.execute_handler v))))
  else if system_call = SYS_WAIT then
    chk m (p + 4) (fun _ => rd m (p + 4) (fun v => SysEff.ret (H.wait_handler v)))
  else if system_call = SYS_CREATE then
    chk m (p + 20) (fun _ => rd m (p + 16) (fun nm =>
      chk m (addrOf nm) (fun _ => rd m (p + 20) (fun sz =>
        SysEff.ret (H.create_handler nm sz)))))
  else if system_call = SYS_REMOVE then
    chk m (p + 4) (fun _ => rd m (p + 4) (fun v =>
      chk m (addrOf v) (fun _ => SysEff.ret (H.remove_handler v))))
  else if system_call = SYS_OPEN then
    chk m (p + 4) (fun _ => rd m (p + 4) (fun v =>
      chk m (addrOf v) (fun _ => SysEff.ret (H.open_handler v))))
  else if system_call = SYS_FILESIZE then
    chk m (p + 4) (fun _ => rd m (p + 4) (fun v => SysEff.ret (H.filesize_handler v)))
  else if system_call = SYS_READ then
    chk m (p + 28) (fun _ => rd m (p + 24) (fun buf =>
      chk m (addrOf buf) (fun _ => rd m (p + 20) (fun fd =>
        rd m (p + 28) (fun sz => SysEff.ret (H.read_handler fd buf sz))))))
  else if system_call = SYS_WRITE then
    chk m (p + 28) (fun _ => rd m (p + 24) (fun buf =>
      chk m (addrOf buf) (fun _ => rd m (p + 20) (fun fd =>
        rd m (p + 28) (fun sz => SysEff.ret (H.write_handler fd buf sz))))))
  else if system_call = SYS_SEEK then
    chk m (p + 20) (fun _ => rd m (p + 16) (fun _fd =>
      rd m (p + 20) (fun _pos => SysEff.ret_noeax)))
  else if system_call = SYS_TELL then
    chk m (p + 4) (fun _ => rd m (p + 4) (fun _fd => SysEff.ret_noeax))
  else if system_call = SYS_CLOSE then
    chk m (p + 4) (fun _ => rd m (p + 4) (fun _fd => SysEff.ret_noeax))
  else SysEff.ret_noeax))

/-- The addresses `syscall_handler` passes to `is_valid_address` on a given
input, in execution order, truncated at the first failed check or faulting
raw read (addresses after those points are never reached). -/
def syscall_checks (m : Mem) (esp : Nat) : List Nat :=
  let p := esp
  p ::
    (if addr_valid m p then
      match m p with
      | none => []
      | some system_call =>
        if system_call = SYS_EXIT ∨ system_call = SYS_WAIT ∨
            system_call = SYS_FILESIZE ∨ system_call = SYS_TELL ∨
            system_call = SYS_CLOSE then
          [p + 4]
        else if system_call = SYS_EXEC ∨ system_call = SYS_REMOVE ∨
            system_call = SYS_OPEN then
          (p + 4) ::
            (if addr_valid m (p + 4) then
              match m (p + 4) with
              | some v => [addrOf v]
              | none => []
            else [])
        else if system_call = SYS_CREATE then
          (p + 20) ::
            (if addr_valid m (p + 20) then
              match m (p + 16) with
              | some v => [addrOf v]
              | none => []
            else [])
        else if system_call = SYS_READ ∨ system_call = SYS_WRITE then
          (p + 28) ::
            (if addr_valid m (p + 28) then
              match m (p + 24) with
              | some v => [addrOf v]
              | none => []
            else [])
        else if system_call = SYS_SEEK then
          [p + 20]
        else []
    else [])

/-! ## Helper lemmas -/

/-- The two fixed-point renderings of the MLFQS priority formula coincide:
the source's `INT_ADD`/`INT_SUB`/`ROUND_ZERO` pipeline equals the spec's
`PRI_MAX − recent_cpu/4 − 2·nice` computed in fixed point. -/
theorem mlfqs_priority_calc_eq_spec (rc n : Int) :
    mlfqs_priority_calc rc n = mlfqs_priority_spec rc n := by
  have h : PRI_MAX * fpF - (Int.tdiv rc 4 + 2 * n * fpF)
      = PRI_MAX * fpF - Int.tdiv rc 4 - 2 * n * fpF := by ring
  simp only [mlfqs_priority_calc, mlfqs_priority_spec, INT_ADD, INT_SUB,
    INT_DIVIDE, ROUND_ZERO]
  rw [h]

theorem filter_or_length (l : List Thread) (p q : Thread → Bool)
    (hdisj : ∀ t, ¬(p t = true ∧ q t = true)) :
    (l.filter (fun t => p t || q t)).length
      = (l.filter p).length + (l.filter q).length := by
  induction l with
  | nil => simp
  | cons a l ih =>
    by_cases hp : p a = true
    · have hq : q a = false := by
        rcases Bool.eq_false_or_eq_true (q a) with h | h
        · exact absurd ⟨hp, h⟩ (hdisj a)
        · exact h
      simp [List.filter_cons, hp, hq, ih]
      omega
    · rw [Bool.not_eq_true] at hp
      by_cases hq : q a = true <;>
        simp [List.filter_cons, hp, hq, ih] <;> omega

theorem filter_and_split (l : List Thread) (p q : Thread → Bool) :
    l.filter (fun t => p t && q t) = (l.filter p).filter q := by
  induction l with
  | nil => rfl
  | cons a l ih =>
    by_cases hp : p a = true
    · by_cases hq : q a = true <;> simp [List.filter_cons, hp, hq, ih]
    · rw [Bool.not_eq_true] at hp
      simp [List.filter_cons, hp, ih]

theorem lookup_status_set_status (m : List (Nat × Status)) (tid : Nat) (st : Status) :
    lookup_status (set_status m tid st) tid
      = (lookup_status m tid).map (fun _ => st) := by
  induction m with
  | nil => rfl
  | cons a m ih =>
    rcases a with ⟨i, s0⟩
    by_cases h : i = tid
    · subst h
      simp only [set_status, List.map_cons]
      simp [lookup_status]
    · simp only [set_status, List.map_cons, if_neg h] at *
      simp only [lookup_status, if_neg h]
      exact ih

/-- Splitting the spec's ready-or-running count: when `curr` is the unique
`RUNNING` thread on `all_list`, the count of ready-or-running non-excluded
threads is the count of `READY` non-excluded threads plus one for `curr`
unless `curr` is excluded. -/
theorem ready_count_spec_eq (wk mt idl : Nat) (all_list : List Thread)
    (curr : Thread)
    (hrun : all_list.filter (fun t => decide (t.status = Status.running)) = [curr]) :
    ready_count_spec wk mt idl all_list
      = (all_list.filter (fun t =>
          decide (t.status = Status.ready ∧ t.tid ≠ wk ∧ t.tid ≠ mt ∧
            t.tid ≠ idl))).length
        + (if curr.tid ≠ wk ∧ curr.tid ≠ mt ∧ curr.tid ≠ idl then 1 else 0) := by
  unfold ready_count_spec
  have hsplit : ∀ t : Thread,
      decide ((t.status = Status.ready ∨ t.status = Status.running) ∧
        t.tid ≠ wk ∧ t.tid ≠ mt ∧ t.tid ≠ idl)
      = (decide (t.status = Status.ready ∧ t.tid ≠ wk ∧ t.tid ≠ mt ∧ t.tid ≠ idl)
          || decide (t.status = Status.running ∧ t.tid ≠ wk ∧ t.tid ≠ mt ∧
              t.tid ≠ idl)) := by
    intro t
    by_cases h1 : t.status = Status.ready <;>
      by_cases h2 : t.status = Status.running <;>
        by_cases h3 : t.tid ≠ wk ∧ t.tid ≠ mt ∧ t.tid ≠ idl <;>
          simp [h1, h2, h3]
  rw [List.filter_congr (fun t _ => hsplit t)]
  rw [filter_or_length _ _ _ (by
    intro t hcontra
    have h1 : t.status = Status.ready := (of_decide_eq_true hcontra.1).1
    have h2 : t.status = Status.running := (of_decide_eq_true hcontra.2).1
    rw [h1] at h2
    exact Status.noConfusion h2)]
  congr 1
  have hand : (fun t : Thread =>
      decide (t.status = Status.running ∧ t.tid ≠ wk ∧ t.tid ≠ mt ∧ t.tid ≠ idl))
      = fun t => (decide (t.status = Status.running)
          && decide (t.tid ≠ wk ∧ t.tid ≠ mt ∧ t.tid ≠ idl)) := by
    funext t
    by_cases h2 : t.status = Status.running <;>
      by_cases h3 : t.tid ≠ wk ∧ t.tid ≠ mt ∧ t.tid ≠ idl <;>
        simp [h2, h3]
  rw [hand, filter_and_split, hrun]
  by_cases hc : curr.tid ≠ wk ∧ curr.tid ≠ mt ∧ curr.tid ≠ idl <;>
    simp [hc]

theorem mem_insert_ordered (less : Thread → Thread → Bool) (x b : Thread)
    (l : List Thread) :
    b ∈ insert_ordered less x l ↔ b = x ∨ b ∈ l := by
  induction l with
  | nil => simp [insert_ordered]
  | cons y ys ih =>
    by_cases h : less x y = true
    · simp only [insert_ordered, if_pos h, List.mem_cons]
    · simp only [insert_ordered, if_neg h, List.mem_cons, ih]
      tauto

/-- With the strict greater-than comparator, ordered insertion into a
weakly-descending list places the new element exactly after every element of
priority `≥` its own (hence after every element of equal priority: FIFO
within a priority level) and before every element of strictly lower
priority. -/
theorem insert_ordered_filter_form (t : Thread) (l : List Thread)
    (hs : List.Pairwise (fun a b : Thread => b.priority ≤ a.priority) l) :
    insert_ordered thread_compare_priorities t l
      = l.filter (fun y => decide (t.priority ≤ y.priority))
        ++ t :: l.filter (fun y => decide (y.priority < t.priority)) := by
  induction l with
  | nil => simp [insert_ordered]
  | cons y ys ih =>
    rcases List.pairwise_cons.mp hs with ⟨hy, hys⟩
    by_cases h : t.priority > y.priority
    · have hcmp : thread_compare_priorities t y = true := by
        simp [thread_compare_priorities, h]
      have h1 : (y :: ys).filter (fun z => decide (t.priority ≤ z.priority)) = [] := by
        rw [List.filter_eq_nil]
        intro z hz
        rcases List.mem_cons.mp hz with rfl | hz'
        · simp [not_le_of_lt h]
        · have := hy z hz'
          simp only [decide_eq_true_eq]
          omega
      have h2 : (y :: ys).filter (fun z => decide (z.priority < t.priority))
          = y :: ys := by
        rw [List.filter_eq_self]
        intro z hz
        rcases List.mem_cons.mp hz with rfl | hz'
        · simpa using h
        · have := hy z hz'
          simp only [decide_eq_true_eq]
          omega
      rw [h1, h2]
      simp [insert_ordered, hcmp]
    · have hcmp : thread_compare_priorities t y = false := by
        simp [thread_compare_priorities, h]
      have hle : t.priority ≤ y.priority := le_of_not_lt h
      simp only [insert_ordered, hcmp, Bool.false_eq_true, if_false,
        List.filter_cons]
      simp only [decide_eq_true_eq, hle, if_pos, not_lt_of_le hle,
        decide_eq_false_iff_not, if_neg]
      rw [ih hys]
      simp [hle, not_lt_of_le hle]

/-- With the strict greater-than comparator, ordered insertion preserves
weakly-descending priority order. -/
theorem insert_ordered_sorted (t : Thread) (l : List Thread)
    (hs : List.Pairwise (fun a b : Thread => b.priority ≤ a.priority) l) :
    List.Pairwise (fun a b : Thread => b.priority ≤ a.priority)
      (insert_ordered thread_compare_priorities t l) := by
  induction l with
  | nil => simp [insert_ordered]
  | cons y ys ih =>
    rcases List.pairwise_cons.mp hs with ⟨hy, hys⟩
    by_cases h : t.priority > y.priority
    · have hcmp : thread_compare_priorities t y = true := by
        simp [thread_compare_priorities, h]
      simp only [insert_ordered, hcmp, if_pos]
      refine List.pairwise_cons.mpr ⟨?_, hs⟩
      intro b hb
      rcases List.mem_cons.mp hb with rfl | hb'
      · omega
      · have := hy b hb'
        omega
    · have hcmp : thread_compare_priorities t y = false := by
        simp [thread_compare_priorities, h]
      simp only [insert_ordered, hcmp, Bool.false_eq_true, if_false]
      refine List.pairwise_cons.mpr ⟨?_, ih hys⟩
      intro b hb
      rcases (mem_insert_ordered _ _ _ _).mp hb with rfl | hb'
      · exact le_of_not_lt h
      · exact hy b hb'

theorem isEmpty_false_of_ne_nil {l : List Thread} (h : l ≠ []) :
    l.isEmpty = false := by
  rw [Bool.eq_false_iff]
  intro hc
  exact h (List.isEmpty_iff.mp hc)

theorem highest_from_all_empty (bs : List (List Thread)) (n : Nat)
    (h : ∀ j, j ≤ n → bs.getD j [] = []) :
    highest_from bs n = -1 := by
  induction n with
  | zero =>
    unfold highest_from
    rw [h 0 le_rfl]
    simp
  | succ n ih =>
    unfold highest_from
    rw [h (n + 1) le_rfl]
    simpa using ih (fun j hj => h j (hj.trans (Nat.le_succ n)))

theorem highest_from_eq (bs : List (List Thread)) (n i : Nat)
    (hn : i ≤ n) (hne : bs.getD i [] ≠ [])
    (habove : ∀ j, i < j → j ≤ n → bs.getD j [] = []) :
    highest_from bs n = i := by
  induction n with
  | zero =>
    have : i = 0 := Nat.le_zero.mp hn
    subst this
    unfold highest_from
    rw [isEmpty_false_of_ne_nil hne]
    simp
  | succ n ih =>
    by_cases hi : i = n + 1
    · subst hi
      unfold highest_from
      rw [isEmpty_false_of_ne_nil hne]
      simp
    · have hi' : i ≤ n := Nat.lt_succ_iff.mp (lt_of_le_of_ne hn hi)
      have hempty : bs.getD (n + 1) [] = [] :=
        habove (n + 1) (Nat.lt_succ_of_le hi') le_rfl
      unfold highest_from
      rw [hempty]
      simpa using ih hi' (fun j hj hj' => habove j hj (hj'.trans (Nat.le_succ n)))

/-! ## Claims -/

/-- C1 counterexample: with no donor, `thread_set_priority 64` followed by
`thread_get_priority` returns 64, not `CLAMP 64 PRI_MIN PRI_MAX = 63`: the
source clamps only `orig_priority`, not the effective `priority`. -/
theorem claim_C1_counterexample :
    thread_get_priority
        (thread_set_priority 64
          { tid := 1, status := Status.running, priority := 31,
            orig_priority := 31, nice := 0, recent_cpu := 0, donors_list := [] })
      ≠ CLAMP 64 PRI_MIN PRI_MAX := by
  decide

/-- C1 (amended): `thread_set_priority x` always sets `orig_priority` to
`CLAMP x PRI_MIN PRI_MAX`; with no active donor, a following
`thread_get_priority` returns the raw `x` (not its clamp); with donors
present, the effective priority is updated (to the raw `x`) exactly when `x`
exceeds the current effective priority. -/
theorem claim_C1_amended (x : Int) (t : Thread) :
    (thread_set_priority x t).orig_priority = CLAMP x PRI_MIN PRI_MAX
    ∧ (t.donors_list = [] → thread_get_priority (thread_set_priority x t) = x)
    ∧ (t.donors_list ≠ [] → x ≤ t.priority →
        (thread_set_priority x t).priority = t.priority)
    ∧ (t.donors_list ≠ [] → x > t.priority →
        (thread_set_priority x t).priority = x) := by
  refine ⟨?_, ?_, ?_, ?_⟩
  · by_cases hc : (t.donors_list.isEmpty || decide (x > t.priority)) = true
    · simp [thread_set_priority, hc]
    · simp [thread_set_priority, hc]
  · intro hd
    unfold thread_get_priority thread_set_priority
    simp [hd]
  · intro hd hle
    unfold thread_set_priority
    have h1 : t.donors_list.isEmpty = false := by
      simpa [List.isEmpty_iff] using hd
    simp [h1, not_lt_of_le hle]
  · intro hd hgt
    unfold thread_set_priority
    simp [hgt]

/-- C1 witness: a concrete no-donor thread at priority 31, set to 40. -/
theorem claim_C1_witness :
    thread_get_priority
        (thread_set_priority 40
          { tid := 1, status := Status.running, priority := 31,
            orig_priority := 31, nice := 0, recent_cpu := 0, donors_list := [] })
      = 40 :=
  (claim_C1_amended 40 _).2.1 rfl

/-- C2: for a thread that is not the wake-up, housekeeping, or idle thread,
`thread_update_priority` sets its priority to
`PRI_MAX − recent_cpu/4 − 2·nice` computed in fixed point with truncation
toward zero and clamped to `[PRI_MIN..PRI_MAX]`; in particular the formula
yields `PRI_MAX` at `(recent_cpu, nice) = (0, 0)` and `0` at
`(4·PRI_MAX` in fixed point`, 0)`. -/
theorem claim_C2_thm (wk mt idl : Nat) (t : Thread) (bs : List (List Thread))
    (hex : t.tid ≠ wk ∧ t.tid ≠ mt ∧ t.tid ≠ idl) :
    (thread_update_priority wk mt idl t bs).1.priority
      = mlfqs_priority_spec t.recent_cpu t.nice
    ∧ mlfqs_priority_calc 0 0 = PRI_MAX
    ∧ mlfqs_priority_calc (4 * PRI_MAX * fpF) 0 = 0 := by
  refine ⟨?_, by decide, by decide⟩
  unfold thread_update_priority
  rw [if_pos hex, ← mlfqs_priority_calc_eq_spec]
  by_cases hs : t.status = Status.ready <;> simp [hs]

/-- C2 witness: a concrete non-excluded thread. -/
theorem claim_C2_witness :
    (thread_update_priority 1 2 3
        { tid := 4, status := Status.blocked, priority := 31,
          orig_priority := 31, nice := 0, recent_cpu := 0, donors_list := [] }
        []).1.priority
      = mlfqs_priority_spec 0 0 :=
  (claim_C2_thm 1 2 3 _ [] (by decide)).1

/-- C3: when `curr` is the unique `RUNNING` thread on `all_list` (the
single-CPU invariant under which `thread_update_load_avg` runs),
the recomputation yields
`load_avg' = (59·load_avg + ready_count·F) / 60` in 17.14 fixed point, where
`ready_count` is the number of threads whose status is `READY` or `RUNNING`
excluding the wake-up, housekeeping, and idle threads. -/
theorem claim_C3_thm (wk mt idl : Nat) (all_list : List Thread) (curr : Thread)
    (la : Int)
    (hrun : all_list.filter (fun t => decide (t.status = Status.running)) = [curr]) :
    thread_update_load_avg wk mt idl all_list curr la
      = Int.tdiv (la * 59 + (ready_count_spec wk mt idl all_list : Int) * fpF) 60 := by
  rw [ready_count_spec_eq wk mt idl all_list curr hrun]
  unfold thread_update_load_avg INT_DIVIDE INT_ADD INT_MULTIPLY
  by_cases hc : curr.tid ≠ wk ∧ curr.tid ≠ mt ∧ curr.tid ≠ idl <;>
    simp [hc]

/-- C3 witness: two threads (one running, one ready) next to the three
excluded tids. -/
theorem claim_C3_witness :
    thread_update_load_avg 1 2 3
        [{ tid := 4, status := Status.running, priority := 31, orig_priority := 31,
           nice := 0, recent_cpu := 0, donors_list := [] },
         { tid := 5, status := Status.ready, priority := 31, orig_priority := 31,
           nice := 0, recent_cpu := 0, donors_list := [] }]
        { tid := 4, status := Status.running, priority := 31, orig_priority := 31,
          nice := 0, recent_cpu := 0, donors_list := [] }
        60
      = Int.tdiv (60 * 59 + (ready_count_spec 1 2 3
          [{ tid := 4, status := Status.running, priority := 31, orig_priority := 31,
             nice := 0, recent_cpu := 0, donors_list := [] },
           { tid := 5, status := Status.ready, priority := 31, orig_priority := 31,
             nice := 0, recent_cpu := 0, donors_list := [] }] : Int) * fpF) 60 :=
  claim_C3_thm 1 2 3 _ _ 60 (by decide)

/-- C4: with a successful allocation, `thread_create` takes the immediate
yield exactly when the new thread's priority strictly exceeds the creator's
and the new thread is not the registered idle thread; in particular an equal
or lower priority never yields.  (`PRI_MIN ≤ priority ≤ PRI_MAX` is
`init_thread`'s assertion.) -/
theorem claim_C4_thm (k : Kern) (priority : Int)
    (hpri : PRI_MIN ≤ priority ∧ priority ≤ PRI_MAX) :
    ((thread_create k priority true).2.2 = true ↔
      (priority > k.cur.priority ∧
        ∀ i, k.idle_thread = some i → i.tid ≠ k.next_tid))
    ∧ (priority ≤ k.cur.priority → (thread_create k priority true).2.2 = false) := by
  have hy : (thread_create k priority true).2.2
      = (decide (priority > k.cur.priority)
          && !(match k.idle_thread with
              | some i => i.tid == k.next_tid
              | none => false)) := by
    unfold thread_create init_thread thread_unblock is_idle
    by_cases hm : k.thread_mlfqs <;> simp [hm]
  constructor
  · rw [hy]
    rcases hi : k.idle_thread with _ | i <;>
      simp [hi, decide_eq_true_eq]
  · intro hle
    rw [hy]
    simp [not_lt_of_le hle]

/-- C4 witness: creating at priority 40 above a creator at 31 yields; the
idle thread is registered with a different tid. -/
theorem claim_C4_witness :
    (thread_create
        { thread_mlfqs := false, ready_list := [], mlfqs_lists := [],
          all_list := [], children := [], next_tid := 7,
          cur := { tid := 1, status := Status.running, priority := 31,
                   orig_priority := 31, nice := 0, recent_cpu := 0,
                   donors_list := [] },
          idle_thread := some { tid := 2, status := Status.blocked, priority := 0,
                                orig_priority := 0, nice := 0, recent_cpu := 0,
                                donors_list := [] } }
        40 true).2.2 = true :=
  ((claim_C4_thm _ 40 (by decide)).1).mpr ⟨by decide, by decide⟩

/-- C7: when the page allocation fails, `thread_create` returns `TID_ERROR`
and the kernel state — `all_list`, the ready structures, the creator's
children list, the tid counter — is returned unchanged: no partial state. -/
theorem claim_C7_thm (k : Kern) (priority : Int) :
    thread_create k priority false = (TID_ERROR, k, false) := by
  rfl

/-- C5: every non-MLFQS insertion into the ready list (`thread_unblock`,
`thread_yield`, and `thread_create` via `thread_unblock`) goes through
`insert_ordered` with the strict greater-than comparator
`thread_compare_priorities`; such an insertion into a weakly-descending list
places the new thread behind every thread of priority `≥` its own (FIFO
within a priority level) and in front of every strictly lower one, and
preserves the weakly-descending order. -/
theorem claim_C5_thm (t : Thread) (l : List Thread)
    (hs : List.Pairwise (fun a b : Thread => b.priority ≤ a.priority) l) :
    (insert_ordered thread_compare_priorities t l
       = l.filter (fun y => decide (t.priority ≤ y.priority))
         ++ t :: l.filter (fun y => decide (y.priority < t.priority)))
    ∧ List.Pairwise (fun a b : Thread => b.priority ≤ a.priority)
        (insert_ordered thread_compare_priorities t l)
    ∧ (∀ k : Kern, k.thread_mlfqs = false →
        (thread_unblock k t).1.ready_list
          = insert_ordered thread_compare_priorities
              { t with status := Status.ready } k.ready_list)
    ∧ (∀ k : Kern, k.thread_mlfqs = false → is_idle k k.cur = false →
        (thread_yield_enqueue k).ready_list
          = insert_ordered thread_compare_priorities
              { k.cur with status := Status.ready } k.ready_list) := by
  refine ⟨insert_ordered_filter_form t l hs, insert_ordered_sorted t l hs, ?_, ?_⟩
  · intro k hm
    simp [thread_unblock, hm]
  · intro k hm hidle
    simp [thread_yield_enqueue, hm, hidle]

/-- C5 witness: inserting a priority-40 thread into a sorted ready list
already holding priorities 50 and 40. -/
theorem claim_C5_witness :
    insert_ordered thread_compare_priorities
        { tid := 4, status := Status.ready, priority := 40, orig_priority := 40,
          nice := 0, recent_cpu := 0, donors_list := [] }
        [{ tid := 1, status := Status.ready, priority := 50, orig_priority := 50,
           nice := 0, recent_cpu := 0, donors_list := [] },
         { tid := 2, status := Status.ready, priority := 40, orig_priority := 40,
           nice := 0, recent_cpu := 0, donors_list := [] }]
      = ([{ tid := 1, status := Status.ready, priority := 50, orig_priority := 50,
            nice := 0, recent_cpu := 0, donors_list := [] },
          { tid := 2, status := Status.ready, priority := 40, orig_priority := 40,
            nice := 0, recent_cpu := 0, donors_list := [] }].filter
            (fun y => decide ((40 : Int) ≤ y.priority)))
        ++ { tid := 4, status := Status.ready, priority := 40, orig_priority := 40,
             nice := 0, recent_cpu := 0, donors_list := [] }
          :: ([{ tid := 1, status := Status.ready, priority := 50, orig_priority := 50,
                 nice := 0, recent_cpu := 0, donors_list := [] },
               { tid := 2, status := Status.ready, priority := 40, orig_priority := 40,
                 nice := 0, recent_cpu := 0, donors_list := [] }].filter
                (fun y => decide (y.priority < (40 : Int)))) :=
  (claim_C5_thm _ _ (by decide)).1

/-- C6: in MLFQS mode `next_thread_to_run` pops the front of the first
non-empty bucket scanning from `PRI_MAX = 63` downward, and returns the idle
thread when all buckets are empty; in non-MLFQS mode it returns the idle
thread when the ready list is empty. -/
theorem claim_C6_thm (k : Kern) :
    (k.thread_mlfqs = true →
      ((∀ j, j ≤ 63 → k.mlfqs_lists.getD j [] = []) →
          next_thread_to_run k = (k.idle_thread, k))
      ∧ (∀ i t rest, i ≤ 63 → k.mlfqs_lists.getD i [] = t :: rest →
          (∀ j, i < j → j ≤ 63 → k.mlfqs_lists.getD j [] = []) →
          next_thread_to_run k
            = (some t, { k with mlfqs_lists := k.mlfqs_lists.set i rest })))
    ∧ (k.thread_mlfqs = false → k.ready_list = [] →
        next_thread_to_run k = (k.idle_thread, k)) := by
  refine ⟨fun hm => ⟨?_, ?_⟩, ?_⟩
  · intro hempty
    have hh : thread_mlfqs_get_highest_priority k.mlfqs_lists = -1 :=
      highest_from_all_empty _ 63 hempty
    simp [next_thread_to_run, hm, hh]
  · intro i t rest hle hbucket habove
    have hh : thread_mlfqs_get_highest_priority k.mlfqs_lists = (i : Int) :=
      highest_from_eq _ 63 i hle (by rw [hbucket]; exact List.cons_ne_nil t rest)
        habove
    have hne : ((i : Int)) ≠ -1 := by omega
    have hb2 : (k.mlfqs_lists[i]?).getD [] = t :: rest := by
      rw [← List.getD_eq_getElem?_getD]
      exact hbucket
    simp [next_thread_to_run, hm, hh, hne, hb2]
  · intro hm hready
    simp [next_thread_to_run, hm, hready]

/-- C6 witness: in MLFQS mode with a single non-empty bucket at priority 0,
its front thread is popped. -/
theorem claim_C6_witness :
    next_thread_to_run
        { thread_mlfqs := true, ready_list := [],
          mlfqs_lists := [[{ tid := 5, status := Status.ready, priority := 0,
                             orig_priority := 0, nice := 0, recent_cpu := 0,
                             donors_list := [] }]],
          all_list := [], children := [], next_tid := 6,
          cur := { tid := 1, status := Status.running, priority := 31,
                   orig_priority := 31, nice := 0, recent_cpu := 0,
                   donors_list := [] },
          idle_thread := none }
      = (some { tid := 5, status := Status.ready, priority := 0,
                orig_priority := 0, nice := 0, recent_cpu := 0,
                donors_list := [] },
         { thread_mlfqs := true, ready_list := [], mlfqs_lists := [[]],
           all_list := [], children := [], next_tid := 6,
           cur := { tid := 1, status := Status.running, priority := 31,
                    orig_priority := 31, nice := 0, recent_cpu := 0,
                    donors_list := [] },
           idle_thread := none }) :=
  ((claim_C6_thm _).1 rfl).2 0 _ [] (by decide) (by decide)
    (by
      intro j h1 _
      exact List.getD_eq_default _ _ h1)

/-- C8: `thread_yield` is the enqueue step followed by `schedule`; the
enqueue step re-inserts the current thread into the ready list (non-MLFQS)
or its priority bucket (MLFQS) unless it is the idle thread, in which case
the ready structures are untouched, and a yield by the idle thread with no
ready thread leaves the whole state unchanged. -/
theorem claim_C8_thm (k : Kern) :
    thread_yield k = schedule (thread_yield_enqueue k)
    ∧ (is_idle k k.cur = false → k.thread_mlfqs = false →
        (thread_yield_enqueue k).ready_list
          = insert_ordered thread_compare_priorities
              { k.cur with status := Status.ready } k.ready_list)
    ∧ (is_idle k k.cur = false → k.thread_mlfqs = true →
        (thread_yield_enqueue k).mlfqs_lists
          = bucket_push k.mlfqs_lists { k.cur with status := Status.ready })
    ∧ (is_idle k k.cur = true →
        (thread_yield_enqueue k).ready_list = k.ready_list
        ∧ (thread_yield_enqueue k).mlfqs_lists = k.mlfqs_lists)
    ∧ (k.idle_thread = some k.cur → k.cur.status = Status.running →
        k.thread_mlfqs = false → k.ready_list = [] → thread_yield k = k)
    ∧ (k.idle_thread = some k.cur → k.cur.status = Status.running →
        k.thread_mlfqs = true → (∀ j, j ≤ 63 → k.mlfqs_lists.getD j [] = []) →
        thread_yield k = k) := by
  refine ⟨rfl, ?_, ?_, ?_, ?_, ?_⟩
  · intro h1 h2
    simp [thread_yield_enqueue, h1, h2]
  · intro h1 h2
    simp [thread_yield_enqueue, h1, h2]
  · intro h1
    constructor <;> simp [thread_yield_enqueue, h1]
  · intro hid hst hm hready
    rcases k with ⟨fm, rl, ml, al, ch, nt, cu, idt⟩
    dsimp only at hid hst hm hready
    subst hm
    subst hready
    subst hid
    have hcur : { cu with status := Status.running } = cu := by
      rw [← hst]
    unfold thread_yield thread_yield_enqueue schedule next_thread_to_run
    simp [is_idle, hcur]
  · intro hid hst hm hempty
    rcases k with ⟨fm, rl, ml, al, ch, nt, cu, idt⟩
    dsimp only at hid hst hm hempty
    subst hm
    subst hid
    have hcur : { cu with status := Status.running } = cu := by
      rw [← hst]
    have hh : thread_mlfqs_get_highest_priority ml = -1 :=
      highest_from_all_empty _ 63 hempty
    unfold thread_yield thread_yield_enqueue schedule next_thread_to_run
    simp [is_idle, hh, hcur]

/-- C8 witness: the registered idle thread yielding with an empty ready list
changes nothing. -/
theorem claim_C8_witness :
    thread_yield
        { thread_mlfqs := false, ready_list := [], mlfqs_lists := [],
          all_list := [], children := [], next_tid := 3,
          cur := { tid := 2, status := Status.running, priority := 0,
                   orig_priority := 0, nice := 0, recent_cpu := 0,
                   donors_list := [] },
          idle_thread := some { tid := 2, status := Status.running, priority := 0,
                                orig_priority := 0, nice := 0, recent_cpu := 0,
                                donors_list := [] } }
      = { thread_mlfqs := false, ready_list := [], mlfqs_lists := [],
          all_list := [], children := [], next_tid := 3,
          cur := { tid := 2, status := Status.running, priority := 0,
                   orig_priority := 0, nice := 0, recent_cpu := 0,
                   donors_list := [] },
          idle_thread := some { tid := 2, status := Status.running, priority := 0,
                                orig_priority := 0, nice := 0, recent_cpu := 0,
                                donors_list := [] } } :=
  (claim_C8_thm _).2.2.2.2.1 rfl rfl rfl rfl

/-- C10: `thread_schedule_tail` frees the previous thread's page exactly when
`prev` is non-null, its status (read after the current thread was marked
`RUNNING`) is `DYING`, and it is not the initial thread; hence the initial
thread is never freed, and the thread that is currently running (whose status
was just set to `RUNNING`) is never freed. -/
theorem claim_C10_thm (s : TailState) (p : Nat) :
    (thread_schedule_tail s none).freed = s.freed
    ∧ (lookup_status (set_status s.threads s.cur Status.running) p
          = some Status.dying → p ≠ s.initial_tid →
        (thread_schedule_tail s (some p)).freed = s.freed ++ [p])
    ∧ (¬(lookup_status (set_status s.threads s.cur Status.running) p
          = some Status.dying ∧ p ≠ s.initial_tid) →
        (thread_schedule_tail s (some p)).freed = s.freed)
    ∧ (p = s.initial_tid → (thread_schedule_tail s (some p)).freed = s.freed)
    ∧ (p = s.cur → lookup_status s.threads p ≠ none →
        (thread_schedule_tail s (some p)).freed = s.freed) := by
  refine ⟨rfl, ?_, ?_, ?_, ?_⟩
  · intro hd hni
    unfold thread_schedule_tail
    simp [hd, hni]
  · intro hn
    unfold thread_schedule_tail
    simp only []
    split
    · exact absurd ‹_› hn
    · rfl
  · intro hp
    unfold thread_schedule_tail
    simp [hp]
  · intro hp hsome
    unfold thread_schedule_tail
    have : lookup_status (set_status s.threads s.cur Status.running) p
        = (lookup_status s.threads p).map (fun _ => Status.running) := by
      rw [hp]; exact lookup_status_set_status s.threads s.cur Status.running
    rcases h : lookup_status s.threads p with _ | st
    · exact absurd h hsome
    · rw [h] at this
      simp [this]

/-- C9 counterexample: `SYS_SEEK` validates only the stack slot `p + 5`; the
argument slot `p + 4` is dereferenced unchecked.  With `esp = 4096`, the word
at `4096` holding `SYS_SEEK`, the slot `p + 5` (address 4116) mapped, and the
slot `p + 4` (address 4112) unmapped, the dispatcher faults on the unmapped
address 4112 instead of terminating the process through the exit path with
status `-1`. -/
theorem claim_C9_counterexample :
    syscall_handler
        (fun a => if a = 4096 then some SYS_SEEK
                  else if a = 4116 then some 0 else none)
        { execute_handler := fun _ => 0, wait_handler := fun _ => 0,
          create_handler := fun _ _ => 0, remove_handler := fun _ => 0,
          open_handler := fun _ => 0, filesize_handler := fun _ => 0,
          read_handler := fun _ _ _ => 0, write_handler := fun _ _ _ => 0,
          tell_handler := fun _ => 0 }
        4096
      = SysEff.fault 4112
    ∧ addr_valid
        (fun a => if a = 4096 then some SYS_SEEK
                  else if a = 4116 then some 0 else none) 4112 = false
    ∧ SysEff.fault 4112 ≠ SysEff.exited (-1) := by
  refine ⟨by decide, by decide, by decide⟩

/-- C9 (amended): every address that `syscall_handler` actually passes to
`is_valid_address` (the stack slot holding the syscall number, plus the
specific per-case slots and pointer arguments) is, on failure, answered by
termination through the exit path with status `-1` and never by an error
return; however, not every user-supplied argument slot is validated — the
unchecked slots (`p+4` for create/seek, `p+5`/`p+6` for read/write) are
dereferenced raw, so an unmapped one faults instead. -/
theorem claim_C9_amended (m : Mem) (H : Handlers) (esp : Nat) :
    (∀ a ∈ syscall_checks m esp, addr_valid m a = true)
    ∨ syscall_handler m H esp = SysEff.exited (-1) := by
  by_cases h0 : addr_valid m esp
  case neg =>
    right
    rw [Bool.not_eq_true] at h0
    simp [syscall_handler, chk, h0]
  case pos =>
  rcases hm0 : m esp with _ | sc
  · left
    intro a ha
    simp [syscall_checks, h0, hm0] at ha
    subst ha
    exact h0
  by_cases h1 : sc = SYS_HALT
  · left
    intro a ha
    simp [syscall_checks, h0, hm0, h1, SYS_HALT, SYS_EXIT, SYS_EXEC, SYS_WAIT,
      SYS_CREATE, SYS_REMOVE, SYS_OPEN, SYS_FILESIZE, SYS_READ, SYS_WRITE,
      SYS_SEEK, SYS_TELL, SYS_CLOSE] at ha
    subst ha
    exact h0
  by_cases h2 : sc = SYS_EXIT
  · by_cases hb : addr_valid m (esp + 4)
    · left
      intro a ha
      simp [syscall_checks, h0, hm0, h2, SYS_HALT, SYS_EXIT, SYS_EXEC, SYS_WAIT,
        SYS_CREATE, SYS_REMOVE, SYS_OPEN, SYS_FILESIZE, SYS_READ, SYS_WRITE,
        SYS_SEEK, SYS_TELL, SYS_CLOSE] at ha
      rcases ha with rfl | rfl
      · exact h0
      · exact hb
    · right
      rw [Bool.not_eq_true] at hb
      simp [syscall_handler, chk, rd, h0, hm0, hb, h2, SYS_HALT, SYS_EXIT,
        SYS_EXEC, SYS_WAIT, SYS_CREATE, SYS_REMOVE, SYS_OPEN, SYS_FILESIZE,
        SYS_READ, SYS_WRITE, SYS_SEEK, SYS_TELL, SYS_CLOSE]
  by_cases h3 : sc = SYS_EXEC
  · by_cases hb : addr_valid m (esp + 4)
    · rcases hc : m (esp + 4) with _ | v
      · simp [addr_valid, hc] at hb
      · by_cases hv : addr_valid m (addrOf v)
        · left
          intro a ha
          simp [syscall_checks, h0, hm0, hb, hc, h3, SYS_HALT, SYS_EXIT,
            SYS_EXEC, SYS_WAIT, SYS_CREATE, SYS_REMOVE, SYS_OPEN, SYS_FILESIZE,
            SYS_READ, SYS_WRITE, SYS_SEEK, SYS_TELL, SYS_CLOSE] at ha
          rcases ha with rfl | rfl | rfl
          · exact h0
          · exact hb
          · exact hv
        · right
          rw [Bool.not_eq_true] at hv
          simp [syscall_handler, chk, rd, h0, hm0, hb, hc, hv, h3, SYS_HALT,
            SYS_EXIT, SYS_EXEC, SYS_WAIT, SYS_CREATE, SYS_REMOVE, SYS_OPEN,
            SYS_FILESIZE, SYS_READ, SYS_WRITE, SYS_SEEK, SYS_TELL, SYS_CLOSE]
    · right
      rw [Bool.not_eq_true] at hb
      simp [syscall_handler, chk, rd, h0, hm0, hb, h3, SYS_HALT, SYS_EXIT,
        SYS_EXEC, SYS_WAIT, SYS_CREATE, SYS_REMOVE, SYS_OPEN, SYS_FILESIZE,
        SYS_READ, SYS_WRITE, SYS_SEEK, SYS_TELL, SYS_CLOSE]
  by_cases h4 : sc = SYS_WAIT
  · by_cases hb : addr_valid m (esp + 4)
    · left
      intro a ha
      simp [syscall_checks, h0, hm0, h4, SYS_HALT, SYS_EXIT, SYS_EXEC, SYS_WAIT,
        SYS_CREATE, SYS_REMOVE, SYS_OPEN, SYS_FILESIZE, SYS_READ, SYS_WRITE,
        SYS_SEEK, SYS_TELL, SYS_CLOSE] at ha
      rcases ha with rfl | rfl
      · exact h0
      · exact hb
    · right
      rw [Bool.not_eq_true] at hb
      simp [syscall_handler, chk, rd, h0, hm0, hb, h4, SYS_HALT, SYS_EXIT,
        SYS_EXEC, SYS_WAIT, SYS_CREATE, SYS_REMOVE, SYS_OPEN, SYS_FILESIZE,
        SYS_READ, SYS_WRITE, SYS_SEEK, SYS_TELL, SYS_CLOSE]
  by_cases h5 : sc = SYS_CREATE
  · by_cases hb : addr_valid m (esp + 20)
    · rcases hc : m (esp + 16) with _ | v
      · left
        intro a ha
        simp [syscall_checks, h0, hm0, hb, hc, h5, SYS_HALT, SYS_EXIT,
          SYS_EXEC, SYS_WAIT, SYS_CREATE, SYS_REMOVE, SYS_OPEN, SYS_FILESIZE,
          SYS_READ, SYS_WRITE, SYS_SEEK, SYS_TELL, SYS_CLOSE] at ha
        rcases ha with rfl | rfl
        · exact h0
        · exact hb
      · by_cases hv : addr_valid m (addrOf v)
        · left
          intro a ha
          simp [syscall_checks, h0, hm0, hb, hc, h5, SYS_HALT, SYS_EXIT,
            SYS_EXEC, SYS_WAIT, SYS_CREATE, SYS_REMOVE, SYS_OPEN, SYS_FILESIZE,
            SYS_READ, SYS_WRITE, SYS_SEEK, SYS_TELL, SYS_CLOSE] at ha
          rcases ha with rfl | rfl | rfl
          · exact h0
          · exact hb
          · exact hv
        · right
          rw [Bool.not_eq_true] at hv
          simp [syscall_handler, chk, rd, h0, hm0, hb, hc, hv, h5, SYS_HALT,
            SYS_EXIT, SYS_EXEC, SYS_WAIT, SYS_CREATE, SYS_REMOVE, SYS_OPEN,
            SYS_FILESIZE, SYS_READ, SYS_WRITE, SYS_SEEK, SYS_TELL, SYS_CLOSE]
    · right
      rw [Bool.not_eq_true] at hb
      simp [syscall_handler, chk, rd, h0, hm0, hb, h5, SYS_HALT, SYS_EXIT,
        SYS_EXEC, SYS_WAIT, SYS_CREATE, SYS_REMOVE, SYS_OPEN, SYS_FILESIZE,
        SYS_READ, SYS_WRITE, SYS_SEEK, SYS_TELL, SYS_CLOSE]
  by_cases h6 : sc = SYS_REMOVE
  · by_cases hb : addr_valid m (esp + 4)
    · rcases hc : m (esp + 4) with _ | v
      · simp [addr_valid, hc] at hb
      · by_cases hv : addr_valid m (addrOf v)
        · left
          intro a ha
          simp [syscall_checks, h0, hm0, hb, hc, h6, SYS_HALT, SYS_EXIT,
            SYS_EXEC, SYS_WAIT, SYS_CREATE, SYS_REMOVE, SYS_OPEN, SYS_FILESIZE,
            SYS_READ, SYS_WRITE, SYS_SEEK, SYS_TELL, SYS_CLOSE] at ha
          rcases ha with rfl | rfl | rfl
          · exact h0
          · exact hb
          · exact hv
        · right
          rw [Bool.not_eq_true] at hv
          simp [syscall_handler, chk, rd, h0, hm0, hb, hc, hv, h6, SYS_HALT,
            SYS_EXIT, SYS_EXEC, SYS_WAIT, SYS_CREATE, SYS_REMOVE, SYS_OPEN,
            SYS_FILESIZE, SYS_READ, SYS_WRITE, SYS_SEEK, SYS_TELL, SYS_CLOSE]
    · right
      rw [Bool.not_eq_true] at hb
      simp [syscall_handler, chk, rd, h0, hm0, hb, h6, SYS_HALT, SYS_EXIT,
        SYS_EXEC, SYS_WAIT, SYS_CREATE, SYS_REMOVE, SYS_OPEN, SYS_FILESIZE,
        SYS_READ, SYS_WRITE, SYS_SEEK, SYS_TELL, SYS_CLOSE]
  by_cases h7 : sc = SYS_OPEN
  · by_cases hb : addr_valid m (esp + 4)
    · rcases hc : m (esp + 4) with _ | v
      · simp [addr_valid, hc] at hb
      · by_cases hv : addr_valid m (addrOf v)
        · left
          intro a ha
          simp [syscall_checks, h0, hm0, hb, hc, h7, SYS_HALT, SYS_EXIT,
            SYS_EXEC, SYS_WAIT, SYS_CREATE, SYS_REMOVE, SYS_OPEN, SYS_FILESIZE,
            SYS_READ, SYS_WRITE, SYS_SEEK, SYS_TELL, SYS_CLOSE] at ha
          rcases ha with rfl | rfl | rfl
          · exact h0
          · exact hb
          · exact hv
        · right
          rw [Bool.not_eq_true] at hv
          simp [syscall_handler, chk, rd, h0, hm0, hb, hc, hv, h7, SYS_HALT,
            SYS_EXIT, SYS_EXEC, SYS_WAIT, SYS_CREATE, SYS_REMOVE, SYS_OPEN,
            SYS_FILESIZE, SYS_READ, SYS_WRITE, SYS_SEEK, SYS_TELL, SYS_CLOSE]
    · right
      rw [Bool.not_eq_true] at hb
      simp [syscall_handler, chk, rd, h0, hm0, hb, h7, SYS_HALT, SYS_EXIT,
        SYS_EXEC, SYS_WAIT, SYS_CREATE, SYS_REMOVE, SYS_OPEN, SYS_FILESIZE,
        SYS_READ, SYS_WRITE, SYS_SEEK, SYS_TELL, SYS_CLOSE]
  by_cases h8 : sc = SYS_FILESIZE
  · by_cases hb : addr_valid m (esp + 4)
    · left
      intro a ha
      simp [syscall_checks, h0, hm0, h8, SYS_HALT, SYS_EXIT, SYS_EXEC, SYS_WAIT,
        SYS_CREATE, SYS_REMOVE, SYS_OPEN, SYS_FILESIZE, SYS_READ, SYS_WRITE,
        SYS_SEEK, SYS_TELL, SYS_CLOSE] at ha
      rcases ha with rfl | rfl
      · exact h0
      · exact hb
    · right
      rw [Bool.not_eq_true] at hb
      simp [syscall_handler, chk, rd, h0, hm0, hb, h8, SYS_HALT, SYS_EXIT,
        SYS_EXEC, SYS_WAIT, SYS_CREATE, SYS_REMOVE, SYS_OPEN, SYS_FILESIZE,
        SYS_READ, SYS_WRITE, SYS_SEEK, SYS_TELL, SYS_CLOSE]
  by_cases h9 : sc = SYS_READ
  · by_cases hb : addr_valid m (esp + 28)
    · rcases hc : m (esp + 24) with _ | v
      · left
        intro a ha
        simp [syscall_checks, h0, hm0, hb, hc, h9, SYS_HALT, SYS_EXIT,
          SYS_EXEC, SYS_WAIT, SYS_CREATE, SYS_REMOVE, SYS_OPEN, SYS_FILESIZE,
          SYS_READ, SYS_WRITE, SYS_SEEK, SYS_TELL, SYS_CLOSE] at ha
        rcases ha with rfl | rfl
        · exact h0
        · exact hb
      · by_cases hv : addr_valid m (addrOf v)
        · left
          intro a ha
          simp [syscall_checks, h0, hm0, hb, hc, h9, SYS_HALT, SYS_EXIT,
            SYS_EXEC, SYS_WAIT, SYS_CREATE, SYS_REMOVE, SYS_OPEN, SYS_FILESIZE,
            SYS_READ, SYS_WRITE, SYS_SEEK, SYS_TELL, SYS_CLOSE] at ha
          rcases ha with rfl | rfl | rfl
          · exact h0
          · exact hb
          · exact hv
        · right
          rw [Bool.not_eq_true] at hv
          simp [syscall_handler, chk, rd, h0, hm0, hb, hc, hv, h9, SYS_HALT,
            SYS_EXIT, SYS_EXEC, SYS_WAIT, SYS_CREATE, SYS_REMOVE, SYS_OPEN,
            SYS_FILESIZE, SYS_READ, SYS_WRITE, SYS_SEEK, SYS_TELL, SYS_CLOSE]
    · right
      rw [Bool.not_eq_true] at hb
      simp [syscall_handler, chk, rd, h0, hm0, hb, h9, SYS_HALT, SYS_EXIT,
        SYS_EXEC, SYS_WAIT, SYS_CREATE, SYS_REMOVE, SYS_OPEN, SYS_FILESIZE,
        SYS_READ, SYS_WRITE, SYS_SEEK, SYS_TELL, SYS_CLOSE]
  by_cases h10 : sc = SYS_WRITE
  · by_cases hb : addr_valid m (esp + 28)
    · rcases hc : m (esp + 24) with _ | v
      · left
        intro a ha
        simp [syscall_checks, h0, hm0, hb, hc, h10, SYS_HALT, SYS_EXIT,
          SYS_EXEC, SYS_WAIT, SYS_CREATE, SYS_REMOVE, SYS_OPEN, SYS_FILESIZE,
          SYS_READ, SYS_WRITE, SYS_SEEK, SYS_TELL, SYS_CLOSE] at ha
        rcases ha with rfl | rfl
        · exact h0
        · exact hb
      · by_cases hv : addr_valid m (addrOf v)
        · left
          intro a ha
          simp [syscall_checks, h0, hm0, hb, hc, h10, SYS_HALT, SYS_EXIT,
            SYS_EXEC, SYS_WAIT, SYS_CREATE, SYS_REMOVE, SYS_OPEN, SYS_FILESIZE,
            SYS_READ, SYS_WRITE, SYS_SEEK, SYS_TELL, SYS_CLOSE] at ha
          rcases ha with rfl | rfl | rfl
          · exact h0
          · exact hb
          · exact hv
        · right
          rw [Bool.not_eq_true] at hv
          simp [syscall_handler, chk, rd, h0, hm0, hb, hc, hv, h10, SYS_HALT,
            SYS_EXIT, SYS_EXEC, SYS_WAIT, SYS_CREATE, SYS_REMOVE, SYS_OPEN,
            SYS_FILESIZE, SYS_READ, SYS_WRITE, SYS_SEEK, SYS_TELL, SYS_CLOSE]
    · right
      rw [Bool.not_eq_true] at hb
      simp [syscall_handler, chk, rd, h0, hm0, hb, h10, SYS_HALT, SYS_EXIT,
        SYS_EXEC, SYS_WAIT, SYS_CREATE, SYS_REMOVE, SYS_OPEN, SYS_FILESIZE,
        SYS_READ, SYS_WRITE, SYS_SEEK, SYS_TELL, SYS_CLOSE]
  by_cases h11 : sc = SYS_SEEK
  · by_cases hb : addr_valid m (esp + 20)
    · left
      intro a ha
      simp [syscall_checks, h0, hm0, h11, SYS_HALT, SYS_EXIT, SYS_EXEC, SYS_WAIT,
        SYS_CREATE, SYS_REMOVE, SYS_OPEN, SYS_FILESIZE, SYS_READ, SYS_WRITE,
        SYS_SEEK, SYS_TELL, SYS_CLOSE] at ha
      rcases ha with rfl | rfl
      · exact h0
      · exact hb
    · right
      rw [Bool.not_eq_true] at hb
      simp [syscall_handler, chk, rd, h0, hm0, hb, h11, SYS_HALT, SYS_EXIT,
        SYS_EXEC, SYS_WAIT, SYS_CREATE, SYS_REMOVE, SYS_OPEN, SYS_FILESIZE,
        SYS_READ, SYS_WRITE, SYS_SEEK, SYS_TELL, SYS_CLOSE]
  by_cases h12 : sc = SYS_TELL
  · by_cases hb : addr_valid m (esp + 4)
    · left
      intro a ha
      simp [syscall_checks, h0, hm0, h12, SYS_HALT, SYS_EXIT, SYS_EXEC, SYS_WAIT,
        SYS_CREATE, SYS_REMOVE, SYS_OPEN, SYS_FILESIZE, SYS_READ, SYS_WRITE,
        SYS_SEEK, SYS_TELL, SYS_CLOSE] at ha
      rcases ha with rfl | rfl
      · exact h0
      · exact hb
    · right
      rw [Bool.not_eq_true] at hb
      simp [syscall_handler, chk, rd, h0, hm0, hb, h12, SYS_HALT, SYS_EXIT,
        SYS_EXEC, SYS_WAIT, SYS_CREATE, SYS_REMOVE, SYS_OPEN, SYS_FILESIZE,
        SYS_READ, SYS_WRITE, SYS_SEEK, SYS_TELL, SYS_CLOSE]
  by_cases h13 : sc = SYS_CLOSE
  · by_cases hb : addr_valid m (esp + 4)
    · left
      intro a ha
      simp [syscall_checks, h0, hm0, h13, SYS_HALT, SYS_EXIT, SYS_EXEC, SYS_WAIT,
        SYS_CREATE, SYS_REMOVE, SYS_OPEN, SYS_FILESIZE, SYS_READ, SYS_WRITE,
        SYS_SEEK, SYS_TELL, SYS_CLOSE] at ha
      rcases ha with rfl | rfl
      · exact h0
      · exact hb
    · right
      rw [Bool.not_eq_true] at hb
      simp [syscall_handler, chk, rd, h0, hm0, hb, h13, SYS_HALT, SYS_EXIT,
        SYS_EXEC, SYS_WAIT, SYS_CREATE, SYS_REMOVE, SYS_OPEN, SYS_FILESIZE,
        SYS_READ, SYS_WRITE, SYS_SEEK, SYS_TELL, SYS_CLOSE]
  · left
    intro a ha
    simp [syscall_checks, h0, hm0, h1, h2, h3, h4, h5, h6, h7, h8, h9, h10,
      h11, h12, h13] at ha
    subst ha
    exact h0

/-- C10 witness: a dying non-initial `prev` is freed. -/
theorem claim_C10_witness :
    (thread_schedule_tail
        { threads := [(1, Status.dying), (2, Status.running)], cur := 2,
          initial_tid := 0, freed := [] }
        (some 1)).freed = [1] :=
  (claim_C10_thm
      { threads := [(1, Status.dying), (2, Status.running)], cur := 2,
        initial_tid := 0, freed := [] } 1).2.1 (by decide) (by decide)

end PintOS
